import Mathlib

/-!
Verification of the EICS/SECS plotting core of `pyspedas/secs/makeplots.py`:
the vendored `CenteredNorm` normalization class, the `noon_midnight_meridian`
terminator-geometry function, and the `make_plots` orchestration.

Numeric values are modelled as exact rationals (`ℚ`); where IEEE special
values (NaN/Inf) are the point of a claim, a dedicated carrier `NpFloat`
with the IEEE special-value rules is used.  Python `None` becomes `Option`,
and operations that can raise in Python return `Option` (with `none` for the
raising executions).
-/

/-- Minimum of a list, `none` on the empty list (numpy's `A.min()` raises on
an empty array). -/
def listMin : List ℚ → Option ℚ
  | [] => none
  | x :: xs => some (xs.foldl min x)

/-- Maximum of a list, `none` on the empty list (numpy's `A.max()` raises on
an empty array). -/
def listMax : List ℚ → Option ℚ
  | [] => none
  | x :: xs => some (xs.foldl max x)

/-- State of a `CenteredNorm` object: `_vcenter`, `clip` (from the
`Normalize` base), `_halfrange`, and the base class's `vmin`/`vmax`
attributes.  `Option` models Python `None`. -/
structure CNState where
  vcenter : ℚ
  clip : Bool
  halfrange : Option ℚ
  vmin : Option ℚ
  vmax : Option ℚ
deriving Repr, DecidableEq

namespace CenteredNorm

/-- `CenteredNorm._set_vmin_vmax`: sets `vmax = vcenter + halfrange` and
`vmin = vcenter - halfrange`.  In the source it is only called with
`_halfrange` set; the argument `h` is that value. -/
def _set_vmin_vmax (s : CNState) (h : ℚ) : CNState :=
  { s with vmax := some (s.vcenter + h), vmin := some (s.vcenter - h) }

/-- The `halfrange` property setter: `None` clears `_halfrange`, `vmin` and
`vmax`; a present value stores its absolute value (and nothing else). -/
def set_halfrange (s : CNState) (h : Option ℚ) : CNState :=
  match h with
  | none => { s with halfrange := none, vmin := none, vmax := none }
  | some h => { s with halfrange := some |h| }

/-- `CenteredNorm.__init__(vcenter, halfrange, clip)`: the base constructor
sets `vmin = vmax = None`, then `_vcenter` is stored and the `halfrange`
setter is invoked. -/
def construct (vcenter : ℚ) (halfrange : Option ℚ) (clip : Bool) : CNState :=
  set_halfrange { vcenter := vcenter, clip := clip,
                  halfrange := none, vmin := none, vmax := none } halfrange

/-- `CenteredNorm.autoscale(A)`: sets
`_halfrange = max(vcenter - A.min(), A.max() - vcenter)` then
`_set_vmin_vmax()`.  `none` models the `ValueError` numpy raises on an
empty array. -/
def autoscale (s : CNState) (A : List ℚ) : Option CNState :=
  match listMin A, listMax A with
  | some mn, some mx =>
      let h := max (s.vcenter - mn) (mx - s.vcenter)
      some (_set_vmin_vmax { s with halfrange := some h } h)
  | _, _ => none

/-- `CenteredNorm.autoscale_None(A)`: runs `autoscale` only when
`_halfrange is None` and `A.size` is nonzero. -/
def autoscale_None (s : CNState) (A : List ℚ) : Option CNState :=
  if s.halfrange = none ∧ A ≠ [] then autoscale s A else some s

/-- The `if self.vmax is not None:` block of the `vcenter` setter, run on
the state after the center update: recomputes `_halfrange` from the
existing `vmin`/`vmax` relative to the (new) center and re-derives
`vmin`/`vmax`.  `none` models the `TypeError` raised when `vmax` is set
but `vmin` is `None` (`vcenter - None`). -/
def set_vcenter_aux (s1 : CNState) : Option CNState :=
  match s1.vmax, s1.vmin with
  | some vmx, some vmn =>
      let h := max (s1.vcenter - vmn) (vmx - s1.vcenter)
      some (_set_vmin_vmax { s1 with halfrange := some h } h)
  | some _, none => none
  | none, _ => some s1

/-- The `vcenter` property setter: stores the new center when it changed,
then runs the recompute block `set_vcenter_aux`. -/
def set_vcenter (s : CNState) (c : ℚ) : Option CNState :=
  set_vcenter_aux (if c ≠ s.vcenter then { s with vcenter := c } else s)

/-- `Normalize.__call__` (matplotlib 3.2 base class) on a scalar, with the
`autoscale_None` dynamically dispatched to the `CenteredNorm` override:
autoscale on the value if `_halfrange` is unset, then linear mapping
`(v - vmin) / (vmax - vmin)` with optional clipping; `vmin == vmax` yields
`0`; `vmin > vmax` raises (`none`); unset `vmin`/`vmax` after autoscaling
raises (`none`). -/
def normalize_call (s : CNState) (value : ℚ) : Option (CNState × ℚ) :=
  match autoscale_None s [value] with
  | none => none
  | some s1 =>
    match s1.vmin, s1.vmax with
    | some vmn, some vmx =>
      if vmn = vmx then some (s1, 0)
      else if vmx < vmn then none
      else
        let v := if s1.clip then min (max value vmn) vmx else value
        some (s1, (v - vmn) / (vmx - vmn))
    | _, _ => none

/-- `CenteredNorm.__call__(value)`: if `_halfrange` is set, re-enforce
symmetry via `_set_vmin_vmax`, then delegate to `Normalize.__call__`. -/
def call (s : CNState) (value : ℚ) : Option (CNState × ℚ) :=
  let s1 := match s.halfrange with
    | some h => _set_vmin_vmax s h
    | none => s
  normalize_call s1 value

end CenteredNorm

example :
    CenteredNorm.autoscale (CenteredNorm.construct 0 none false) [-2, 0, 4] =
      some { vcenter := 0, clip := false, halfrange := some 4,
             vmin := some (-4), vmax := some 4 } := by
  norm_num [CenteredNorm.autoscale, CenteredNorm.construct,
    CenteredNorm.set_halfrange, CenteredNorm._set_vmin_vmax, listMin, listMax]

example :
    (CenteredNorm.call
      { vcenter := 0, clip := false, halfrange := some 4,
        vmin := some (-4), vmax := some 4 } (-2)).map Prod.snd =
      some (1/4) := by
  simp [CenteredNorm.call, CenteredNorm.normalize_call,
    CenteredNorm.autoscale_None, CenteredNorm._set_vmin_vmax]
  norm_num

/-- Evaluating `Normalize.__call__` on a state whose `_halfrange`, `vmin`
and `vmax` are all set: `autoscale_None` is a no-op and the result is the
clipped linear map. -/
lemma CenteredNorm.normalize_call_of_set (s : CNState) (k a b v : ℚ)
    (hk : s.halfrange = some k) (ha : s.vmin = some a) (hb : s.vmax = some b) :
    CenteredNorm.normalize_call s v =
      if a = b then some (s, 0)
      else if b < a then none
      else some (s, ((if s.clip then min (max v a) b else v) - a) / (b - a)) := by
  unfold CenteredNorm.normalize_call CenteredNorm.autoscale_None
  rw [if_neg (by simp [hk])]
  simp only [ha, hb]

/-- `CenteredNorm.__call__` on a state with `_halfrange = some k` first
resets `vmin`/`vmax` symmetrically around `vcenter`. -/
lemma CenteredNorm.call_of_halfrange_some (s : CNState) (k v : ℚ)
    (hk : s.halfrange = some k) :
    CenteredNorm.call s v =
      CenteredNorm.normalize_call (CenteredNorm._set_vmin_vmax s k) v := by
  unfold CenteredNorm.call
  rw [hk]

/-- C1: for every non-empty `data` and every state (hence every `vcenter`),
`autoscale(data)` succeeds and afterwards
`halfrange == max(vcenter - min(data), max(data) - vcenter)`,
`vmin == vcenter - halfrange` and `vmax == vcenter + halfrange`. -/
theorem autoscale_sets_symmetric_range (s : CNState) (A : List ℚ) (mn mx : ℚ)
    (hmn : listMin A = some mn) (hmx : listMax A = some mx) :
    ∃ s', CenteredNorm.autoscale s A = some s' ∧
      s'.halfrange = some (max (s.vcenter - mn) (mx - s.vcenter)) ∧
      s'.vmin = some (s.vcenter - max (s.vcenter - mn) (mx - s.vcenter)) ∧
      s'.vmax = some (s.vcenter + max (s.vcenter - mn) (mx - s.vcenter)) := by
  unfold CenteredNorm.autoscale
  rw [hmn, hmx]
  exact ⟨_, rfl, rfl, rfl, rfl⟩

/-- Witness for C1 at `data = [1, 3]`, `vcenter = 0`. -/
theorem autoscale_sets_symmetric_range_witness :
    listMin [(1:ℚ), 3] = some 1 ∧ listMax [(1:ℚ), 3] = some 3 ∧
    ∃ s', CenteredNorm.autoscale (CenteredNorm.construct 0 none false) [1, 3] = some s' ∧
      s'.halfrange = some (max ((CenteredNorm.construct 0 none false).vcenter - 1)
        (3 - (CenteredNorm.construct 0 none false).vcenter)) ∧
      s'.vmin = some ((CenteredNorm.construct 0 none false).vcenter -
        max ((CenteredNorm.construct 0 none false).vcenter - 1)
          (3 - (CenteredNorm.construct 0 none false).vcenter)) ∧
      s'.vmax = some ((CenteredNorm.construct 0 none false).vcenter +
        max ((CenteredNorm.construct 0 none false).vcenter - 1)
          (3 - (CenteredNorm.construct 0 none false).vcenter)) :=
  ⟨by norm_num [listMin], by norm_num [listMax],
    autoscale_sets_symmetric_range _ _ 1 3 (by norm_num [listMin]) (by norm_num [listMax])⟩

/-- A concrete state as produced by `autoscale([-1, 1])` from a freshly
constructed `CenteredNorm()`: `vcenter = 0`, `halfrange = 1`,
`vmin = -1`, `vmax = 1`. -/
def cnExample : CNState :=
  { vcenter := 0, clip := false, halfrange := some 1,
    vmin := some (-1), vmax := some 1 }

example : CenteredNorm.autoscale (CenteredNorm.construct 0 none false) [-1, 1] =
    some cnExample := by
  norm_num [CenteredNorm.autoscale, CenteredNorm.construct, CenteredNorm.set_halfrange,
    CenteredNorm._set_vmin_vmax, listMin, listMax, cnExample]

/-- C2 counterexample: setting `halfrange` to the present value `2` on the
state `cnExample` stores `|2| = 2` but leaves `vmin = -1` and `vmax = 1`
untouched — it does *not* recompute `vmin = vcenter - |h|` and
`vmax = vcenter + |h|` as part of the setter. -/
theorem set_halfrange_leaves_vmin_vmax_cex :
    (CenteredNorm.set_halfrange cnExample (some 2)).halfrange = some 2 ∧
    (CenteredNorm.set_halfrange cnExample (some 2)).vmin = some (-1) ∧
    (CenteredNorm.set_halfrange cnExample (some 2)).vmax = some 1 ∧
    (CenteredNorm.set_halfrange cnExample (some 2)).vmin ≠
      some (cnExample.vcenter - |(2:ℚ)|) ∧
    (CenteredNorm.set_halfrange cnExample (some 2)).vmax ≠
      some (cnExample.vcenter + |(2:ℚ)|) := by
  norm_num [CenteredNorm.set_halfrange, cnExample]

/-- C2 (amended): setting `halfrange` to `None` clears `halfrange`, `vmin`
and `vmax`; setting it to a present `h` stores `abs(h)` and leaves `vmin`
and `vmax` unchanged — the recomputation `vmin = vcenter - |h|`,
`vmax = vcenter + |h|` happens at the next evaluation (`__call__`), not in
the setter. -/
theorem set_halfrange_spec (s : CNState) (h : ℚ) :
    (CenteredNorm.set_halfrange s none).halfrange = none ∧
    (CenteredNorm.set_halfrange s none).vmin = none ∧
    (CenteredNorm.set_halfrange s none).vmax = none ∧
    CenteredNorm.set_halfrange s (some h) = { s with halfrange := some |h| } ∧
    (∀ v s' r,
      CenteredNorm.call (CenteredNorm.set_halfrange s (some h)) v = some (s', r) →
      s'.vmin = some (s.vcenter - |h|) ∧ s'.vmax = some (s.vcenter + |h|)) := by
  refine ⟨rfl, rfl, rfl, rfl, ?_⟩
  intro v s' r hcall
  rw [CenteredNorm.call_of_halfrange_some _ |h| v rfl,
    CenteredNorm.normalize_call_of_set _ |h| (s.vcenter - |h|) (s.vcenter + |h|) v
      rfl rfl rfl] at hcall
  by_cases heq : s.vcenter - |h| = s.vcenter + |h|
  · rw [if_pos heq] at hcall
    obtain ⟨hs, -⟩ := Prod.mk.injEq .. ▸ Option.some.inj hcall
    subst hs
    exact ⟨rfl, rfl⟩
  · rw [if_neg heq, if_neg (by push_neg; linarith [abs_nonneg h])] at hcall
    obtain ⟨hs, -⟩ := Prod.mk.injEq .. ▸ Option.some.inj hcall
    subst hs
    exact ⟨rfl, rfl⟩

/-- Witness for C2 (amended) at the state `cnExample` with `h = 2` and the
evaluation point `0`. -/
theorem set_halfrange_spec_witness :
    (CenteredNorm.set_halfrange cnExample (some 2)).halfrange = some |(2:ℚ)| ∧
    ∃ s' r,
      CenteredNorm.call (CenteredNorm.set_halfrange cnExample (some 2)) 0 = some (s', r) ∧
      s'.vmin = some (cnExample.vcenter - |(2:ℚ)|) ∧
      s'.vmax = some (cnExample.vcenter + |(2:ℚ)|) := by
  have hmain := set_halfrange_spec cnExample 2
  have hcall : CenteredNorm.call (CenteredNorm.set_halfrange cnExample (some 2)) 0 =
      some ({ vcenter := 0, clip := false, halfrange := some 2,
              vmin := some (-2), vmax := some 2 }, 1/2) := by
    simp [CenteredNorm.call, CenteredNorm.set_halfrange, CenteredNorm._set_vmin_vmax,
      CenteredNorm.normalize_call, CenteredNorm.autoscale_None, cnExample]
    norm_num
  refine ⟨by rw [hmain.2.2.2.1], _, _, hcall, hmain.2.2.2.2 0 _ _ hcall⟩

/-- C5: on any state with `halfrange` set to a positive `k`, for any
`0 ≤ d ≤ k`, evaluating `vcenter - d` and `vcenter + d` gives results that
are equidistant from `0.5` — they sum to `1`. -/
theorem call_symmetric_about_half (s : CNState) (k d : ℚ)
    (hk : s.halfrange = some k) (hkpos : 0 < k) (hd0 : 0 ≤ d) (hdk : d ≤ k) :
    ∃ s1 r1 s2 r2,
      CenteredNorm.call s (s.vcenter - d) = some (s1, r1) ∧
      CenteredNorm.call s (s.vcenter + d) = some (s2, r2) ∧
      r1 + r2 = 1 := by
  have hne : s.vcenter - k ≠ s.vcenter + k := by intro hc; linarith
  have hnlt : ¬ (s.vcenter + k < s.vcenter - k) := by push_neg; linarith
  rw [CenteredNorm.call_of_halfrange_some s k _ hk,
    CenteredNorm.normalize_call_of_set (CenteredNorm._set_vmin_vmax s k) k
      (s.vcenter - k) (s.vcenter + k) _
      (show (CenteredNorm._set_vmin_vmax s k).halfrange = some k from hk) rfl rfl,
    if_neg hne, if_neg hnlt]
  rw [CenteredNorm.call_of_halfrange_some s k _ hk,
    CenteredNorm.normalize_call_of_set (CenteredNorm._set_vmin_vmax s k) k
      (s.vcenter - k) (s.vcenter + k) _
      (show (CenteredNorm._set_vmin_vmax s k).halfrange = some k from hk) rfl rfl,
    if_neg hne, if_neg hnlt]
  rw [max_eq_left (by linarith), min_eq_left (by linarith), ite_self,
    max_eq_left (by linarith), min_eq_left (by linarith), ite_self]
  refine ⟨_, _, _, _, rfl, rfl, ?_⟩
  rw [div_add_div_same]
  rw [div_eq_one_iff_eq (by intro hc; apply hne; linarith)]
  ring

/-- Witness for C5 at the state `cnExample` (`halfrange = 1 > 0`) with
`d = 1/2`. -/
theorem call_symmetric_about_half_witness :
    cnExample.halfrange = some 1 ∧ (0:ℚ) < 1 ∧ (0:ℚ) ≤ 1/2 ∧ (1/2:ℚ) ≤ 1 ∧
    ∃ s1 r1 s2 r2,
      CenteredNorm.call cnExample (cnExample.vcenter - 1/2) = some (s1, r1) ∧
      CenteredNorm.call cnExample (cnExample.vcenter + 1/2) = some (s2, r2) ∧
      r1 + r2 = 1 :=
  ⟨rfl, by norm_num, by norm_num, by norm_num,
    call_symmetric_about_half cnExample 1 (1/2) rfl (by norm_num) (by norm_num) (by norm_num)⟩

/-- States reachable by any sequence of `CenteredNorm` operations starting
from a construction: `__init__`, the `halfrange` setter, `autoscale`,
`autoscale_None`, the `vcenter` setter, and `__call__`. -/
inductive CenteredNorm.Reachable : CNState → Prop where
  | ofConstruct (c : ℚ) (h : Option ℚ) (clip : Bool) :
      CenteredNorm.Reachable (CenteredNorm.construct c h clip)
  | ofSetHalfrange (s : CNState) (h : Option ℚ) :
      CenteredNorm.Reachable s → CenteredNorm.Reachable (CenteredNorm.set_halfrange s h)
  | ofAutoscale (s s' : CNState) (A : List ℚ) :
      CenteredNorm.Reachable s → CenteredNorm.autoscale s A = some s' →
      CenteredNorm.Reachable s'
  | ofAutoscaleNone (s s' : CNState) (A : List ℚ) :
      CenteredNorm.Reachable s → CenteredNorm.autoscale_None s A = some s' →
      CenteredNorm.Reachable s'
  | ofSetVcenter (s s' : CNState) (c : ℚ) :
      CenteredNorm.Reachable s → CenteredNorm.set_vcenter s c = some s' →
      CenteredNorm.Reachable s'
  | ofCall (s s' : CNState) (v r : ℚ) :
      CenteredNorm.Reachable s → CenteredNorm.call s v = some (s', r) →
      CenteredNorm.Reachable s'

/-- The claimed state invariant: once `halfrange` is set it is
non-negative, and `vmin == vcenter - halfrange` and
`vmax == vcenter + halfrange` hold together — never one without the
other. -/
def CenteredNorm.Invariant (s : CNState) : Prop :=
  (∀ h, s.halfrange = some h → 0 ≤ h) ∧
  ((∃ h, s.halfrange = some h ∧ s.vmin = some (s.vcenter - h)) ↔
   (∃ h, s.halfrange = some h ∧ s.vmax = some (s.vcenter + h)))

/-- Inductive strengthening of `CenteredNorm.Invariant`: `vmin`/`vmax` are
either both unset, or symmetric around `vcenter` with a common
non-negative half-width (possibly different from the current
`_halfrange`, e.g. right after a bare `halfrange` setter call). -/
def CenteredNorm.StrongInv (s : CNState) : Prop :=
  (∀ h, s.halfrange = some h → 0 ≤ h) ∧
  ((s.vmin = none ∧ s.vmax = none) ∨
   (∃ k, 0 ≤ k ∧ s.vmin = some (s.vcenter - k) ∧ s.vmax = some (s.vcenter + k)))

lemma le_foldl_max (x z : ℚ) (xs : List ℚ) (h : x ≤ z) : x ≤ xs.foldl max z := by
  induction xs generalizing z with
  | nil => exact h
  | cons y ys ih => exact ih _ (le_trans h (le_max_left z y))

lemma foldl_min_le (x z : ℚ) (xs : List ℚ) (h : z ≤ x) : xs.foldl min z ≤ x := by
  induction xs generalizing z with
  | nil => exact h
  | cons y ys ih => exact ih _ (le_trans (min_le_left z y) h)

lemma strongInv_set_halfrange (s : CNState) (h : Option ℚ)
    (hs : CenteredNorm.StrongInv s) :
    CenteredNorm.StrongInv (CenteredNorm.set_halfrange s h) := by
  obtain ⟨hnn, hd⟩ := hs
  cases h with
  | none => exact ⟨(fun x hx => nomatch hx), Or.inl ⟨rfl, rfl⟩⟩
  | some x =>
    refine ⟨fun y hy => ?_, hd⟩
    have : |x| = y := Option.some.inj hy
    rw [← this]
    exact abs_nonneg x

lemma strongInv_construct (c : ℚ) (h : Option ℚ) (clip : Bool) :
    CenteredNorm.StrongInv (CenteredNorm.construct c h clip) :=
  strongInv_set_halfrange _ h ⟨(fun x hx => nomatch hx), Or.inl ⟨rfl, rfl⟩⟩

/-- A weakening of `StrongInv` that survives re-centering: `vmin`/`vmax`
are both unset or both set and ordered. -/
def CenteredNorm.WeakInv (s : CNState) : Prop :=
  (∀ h, s.halfrange = some h → 0 ≤ h) ∧
  ((s.vmin = none ∧ s.vmax = none) ∨
   (∃ a b, a ≤ b ∧ s.vmin = some a ∧ s.vmax = some b))

lemma strongInv_weakInv (s : CNState) (hs : CenteredNorm.StrongInv s) :
    CenteredNorm.WeakInv s := by
  obtain ⟨hnn, hd⟩ := hs
  refine ⟨hnn, ?_⟩
  rcases hd with ⟨h1, h2⟩ | ⟨k, hk0, h1, h2⟩
  · exact Or.inl ⟨h1, h2⟩
  · exact Or.inr ⟨_, _, by linarith, h1, h2⟩

lemma strongInv_autoscale (s s' : CNState) (A : List ℚ)
    (hs : CenteredNorm.StrongInv s)
    (h : CenteredNorm.autoscale s A = some s') : CenteredNorm.StrongInv s' := by
  cases A with
  | nil => simp [CenteredNorm.autoscale, listMin, listMax] at h
  | cons x xs =>
    simp only [CenteredNorm.autoscale, listMin, listMax,
      CenteredNorm._set_vmin_vmax, Option.some.injEq] at h
    have hmn : xs.foldl min x ≤ x := foldl_min_le x x xs le_rfl
    have hmx : x ≤ xs.foldl max x := le_foldl_max x x xs le_rfl
    have h0 : 0 ≤ max (s.vcenter - xs.foldl min x) (xs.foldl max x - s.vcenter) := by
      rcases le_total s.vcenter (xs.foldl max x) with hc | hc
      · exact le_max_of_le_right (by linarith)
      · exact le_max_of_le_left (by linarith)
    rw [← h]
    refine ⟨?_, Or.inr ⟨_, h0, rfl, rfl⟩⟩
    intro y hy
    rw [← Option.some.inj hy]
    exact h0

lemma strongInv_autoscale_None (s s' : CNState) (A : List ℚ)
    (hs : CenteredNorm.StrongInv s)
    (h : CenteredNorm.autoscale_None s A = some s') : CenteredNorm.StrongInv s' := by
  unfold CenteredNorm.autoscale_None at h
  split_ifs at h with hc
  · exact strongInv_autoscale s s' A hs h
  · rw [← Option.some.inj h]; exact hs

lemma strongInv_set_vcenter_aux (s1 s' : CNState)
    (hs : CenteredNorm.WeakInv s1)
    (h : CenteredNorm.set_vcenter_aux s1 = some s') : CenteredNorm.StrongInv s' := by
  obtain ⟨hnn, hd⟩ := hs
  unfold CenteredNorm.set_vcenter_aux at h
  split at h
  · rename_i vmx vmn hvmax hvmin
    rcases hd with ⟨hv1, hv2⟩ | ⟨a, b, hab, hv1, hv2⟩
    · rw [hv2] at hvmax; cases hvmax
    · have hav : a = vmn := Option.some.inj (hv1 ▸ hvmin)
      have hbv : b = vmx := Option.some.inj (hv2 ▸ hvmax)
      have hab' : vmn ≤ vmx := hav ▸ hbv ▸ hab
      simp only [CenteredNorm._set_vmin_vmax, Option.some.injEq] at h
      have h0 : 0 ≤ max (s1.vcenter - vmn) (vmx - s1.vcenter) := by
        rcases le_total s1.vcenter vmx with hc' | hc'
        · exact le_max_of_le_right (by linarith)
        · exact le_max_of_le_left (by linarith)
      rw [← h]
      refine ⟨?_, Or.inr ⟨_, h0, rfl, rfl⟩⟩
      intro y hy
      rw [← Option.some.inj hy]
      exact h0
  · rename_i hvmax hvmin
    cases h
  · rename_i hvmax
    rcases hd with ⟨hv1, hv2⟩ | ⟨a, b, hab, hv1, hv2⟩
    · rw [← Option.some.inj h]
      exact ⟨hnn, Or.inl ⟨hv1, hv2⟩⟩
    · rw [hv2] at hvmax
      cases hvmax

lemma strongInv_set_vcenter (s s' : CNState) (c : ℚ)
    (hs : CenteredNorm.StrongInv s)
    (h : CenteredNorm.set_vcenter s c = some s') : CenteredNorm.StrongInv s' := by
  unfold CenteredNorm.set_vcenter at h
  refine strongInv_set_vcenter_aux _ _ ?_ h
  have hw := strongInv_weakInv s hs
  obtain ⟨hnn, hd⟩ := hw
  split
  · exact ⟨hnn, hd⟩
  · exact ⟨hnn, hd⟩

lemma normalize_call_state (s : CNState) (v : ℚ) (s' : CNState) (r : ℚ)
    (h : CenteredNorm.normalize_call s v = some (s', r)) :
    CenteredNorm.autoscale_None s [v] = some s' := by
  unfold CenteredNorm.normalize_call at h
  split at h
  · cases h
  · rename_i s2 ha
    rw [ha]
    split at h
    · rename_i vmn vmx h1 h2
      split_ifs at h <;>
        first
          | exact congrArg some (Prod.mk.injEq .. ▸ Option.some.inj h).1
          | cases h
    · cases h

lemma strongInv_call (s s' : CNState) (v r : ℚ)
    (hs : CenteredNorm.StrongInv s)
    (h : CenteredNorm.call s v = some (s', r)) : CenteredNorm.StrongInv s' := by
  unfold CenteredNorm.call at h
  rcases hh : s.halfrange with _ | k <;> rw [hh] at h
  · exact strongInv_autoscale_None _ _ _ hs (normalize_call_state _ _ _ _ h)
  · have hk0 : 0 ≤ k := hs.1 k hh
    have hs1 : CenteredNorm.StrongInv (CenteredNorm._set_vmin_vmax s k) :=
      ⟨fun y hy => hs.1 y hy, Or.inr ⟨k, hk0, rfl, rfl⟩⟩
    exact strongInv_autoscale_None _ _ _ hs1 (normalize_call_state _ _ _ _ h)

lemma reachable_strongInv (s : CNState) (h : CenteredNorm.Reachable s) :
    CenteredNorm.StrongInv s := by
  induction h with
  | ofConstruct c h clip => exact strongInv_construct c h clip
  | ofSetHalfrange s h _ ih => exact strongInv_set_halfrange s h ih
  | ofAutoscale s s' A _ hA ih => exact strongInv_autoscale s s' A ih hA
  | ofAutoscaleNone s s' A _ hA ih => exact strongInv_autoscale_None s s' A ih hA
  | ofSetVcenter s s' c _ hc ih => exact strongInv_set_vcenter s s' c ih hc
  | ofCall s s' v r _ hc ih => exact strongInv_call s s' v r ih hc

lemma strongInv_invariant (s : CNState) (hs : CenteredNorm.StrongInv s) :
    CenteredNorm.Invariant s := by
  obtain ⟨hnn, hd⟩ := hs
  refine ⟨hnn, ?_⟩
  rcases hd with ⟨h1, h2⟩ | ⟨k, hk0, h1, h2⟩
  · constructor
    · rintro ⟨x, hx, hv⟩; rw [h1] at hv; cases hv
    · rintro ⟨x, hx, hv⟩; rw [h2] at hv; cases hv
  · constructor
    · rintro ⟨x, hx, hv⟩
      rw [h1] at hv
      have hxk : x = k := by have := Option.some.inj hv; linarith
      exact ⟨x, hx, by rw [h2, hxk]⟩
    · rintro ⟨x, hx, hv⟩
      rw [h2] at hv
      have hxk : x = k := by have := Option.some.inj hv; linarith
      exact ⟨x, hx, by rw [h1, hxk]⟩

/-- C6: every state reachable by the `CenteredNorm` operations
(construction, the `halfrange` setter, `autoscale`, `autoscale_None`, the
`vcenter` setter, evaluation) satisfies the invariant: once `halfrange` is
set it is non-negative, and the equations `vmin == vcenter - halfrange`
and `vmax == vcenter + halfrange` hold together, never one without the
other. -/
theorem reachable_states_satisfy_invariant (s : CNState)
    (h : CenteredNorm.Reachable s) : CenteredNorm.Invariant s :=
  strongInv_invariant s (reachable_strongInv s h)

/-- Witness for C6 at the freshly constructed default state. -/
theorem reachable_states_satisfy_invariant_witness :
    CenteredNorm.Invariant (CenteredNorm.construct 0 none false) :=
  reachable_states_satisfy_invariant _
    (CenteredNorm.Reachable.ofConstruct 0 none false)

/-- A timestamp parsed from the fixed `'%Y-%m-%d/%H:%M:%S'` format used by
`noon_midnight_meridian` and the plotting functions. -/
structure TimePoint where
  year : ℕ
  month : ℕ
  day : ℕ
  hour : ℕ
  minute : ℕ
  second : ℕ
deriving Repr, DecidableEq

/-- Wall-clock validity of the time-of-day fields, as enforced by
`datetime.strptime`. -/
def TimePoint.ValidTime (tp : TimePoint) : Prop :=
  tp.hour < 24 ∧ tp.minute < 60 ∧ tp.second < 60

/-- `diff_in_hours = (time_noon - time_current_UTC).total_seconds() / 3600`
where `time_noon` is the same calendar day at `12:00:00`; the date parts of
the two timestamps cancel, leaving `(12*3600 - seconds-of-day) / 3600`. -/
def diff_in_hours (tp : TimePoint) : ℚ :=
  ((43200 : ℚ) - (3600 * tp.hour + 60 * tp.minute + tp.second)) / 3600

/-- The noon-line longitude `lons_latmax` computed by
`noon_midnight_meridian`'s `if/elif` chain. -/
def lons_latmax (diff : ℚ) : ℚ :=
  if diff = 0 then 0
  else if 0 < diff then 0 + 15 * diff
  else 0 - 15 * diff

/-- The midnight-line longitude `lons_latmin` computed by
`noon_midnight_meridian`'s `if/elif` chain. -/
def lons_latmin (diff : ℚ) : ℚ :=
  if diff = 0 then 180
  else if 0 < diff then lons_latmax diff - 180
  else lons_latmax diff + 180

/-- Python's `int()` conversion on a float: truncation toward zero. -/
def pyInt (q : ℚ) : ℤ := if q < 0 then ⌈q⌉ else ⌊q⌋

/-- `numpy.linspace(a, b, num)`: `num` evenly spaced samples from `a` to
`b`, both endpoints included (`[a]` when `num = 1`, `[]` when `num = 0`). -/
def linspace (a b : ℚ) (num : ℕ) : List ℚ :=
  if num ≤ 1 then List.replicate num a
  else (List.range num).map (fun i : ℕ => a + (b - a) * i / (num - 1))

/-- The dictionary returned by `noon_midnight_meridian`. -/
structure NoonMidnight where
  lons_noonmidnight : List ℚ
  lats_noonmidnight : List ℚ
  lons_noon : List ℚ
  lats_noon : List ℚ
  lons_midnight : List ℚ
  lats_midnight : List ℚ
deriving Repr, DecidableEq

/-- `noon_midnight_meridian(dtime, delta)`: `n_interval = 360/delta + 1`
sample points, `ni_half = int(floor(n_interval/2))` for the noon side,
`ni_otherhalf = int(n_interval - ni_half)` for the midnight side; the noon
line is at constant longitude `lons_latmax` with latitudes spaced
`-90..90`, the midnight line at constant longitude `lons_latmin` with
latitudes spaced `90..-90`; the full trace is their concatenation. -/
def noon_midnight_meridian (tp : TimePoint) (delta : ℚ) : NoonMidnight :=
  let n_interval : ℚ := 360 / delta + 1
  let ni_half : ℤ := ⌊n_interval / 2⌋
  let ni_otherhalf : ℤ := pyInt (n_interval - (ni_half : ℚ))
  let diff := diff_in_hours tp
  let lons_max_arr := List.replicate ni_half.toNat (lons_latmax diff)
  let lats_max_arr := linspace (-90) 90 ni_half.toNat
  let lons_min_arr := List.replicate ni_otherhalf.toNat (lons_latmin diff)
  let lats_min_arr := linspace 90 (-90) ni_otherhalf.toNat
  { lons_noonmidnight := lons_max_arr ++ lons_min_arr
    lats_noonmidnight := lats_max_arr ++ lats_min_arr
    lons_noon := lons_max_arr
    lats_noon := lats_max_arr
    lons_midnight := lons_min_arr
    lats_midnight := lats_min_arr }

lemma linspace_length (a b : ℚ) (num : ℕ) : (linspace a b num).length = num := by
  unfold linspace
  split
  · exact List.length_replicate num a
  · rw [List.length_map, List.length_range]

lemma pyInt_nonneg (q : ℚ) (h : 0 ≤ q) : pyInt q = ⌊q⌋ := by
  unfold pyInt
  rw [if_neg (not_lt.mpr h)]

/-- C3: for every valid timestamp, `noon_midnight_meridian` maps the hour
difference from same-day 12:00:00 to longitudes at 15°/hour: diff = 0
gives noon 0° and midnight 180°; diff > 0 gives noon `15*diff` and
midnight `noon - 180`; diff < 0 gives noon `-15*diff` and midnight
`noon + 180`; every point of the noon (resp. midnight) trace is at the
noon (resp. midnight) longitude. -/
theorem meridian_maps_hours_to_longitude (tp : TimePoint) (hv : tp.ValidTime) :
    (diff_in_hours tp = 0 →
      lons_latmax (diff_in_hours tp) = 0 ∧ lons_latmin (diff_in_hours tp) = 180) ∧
    (0 < diff_in_hours tp →
      lons_latmax (diff_in_hours tp) = 15 * diff_in_hours tp ∧
      lons_latmin (diff_in_hours tp) = lons_latmax (diff_in_hours tp) - 180) ∧
    (diff_in_hours tp < 0 →
      lons_latmax (diff_in_hours tp) = -(15 * diff_in_hours tp) ∧
      lons_latmin (diff_in_hours tp) = lons_latmax (diff_in_hours tp) + 180) ∧
    (∀ delta : ℚ, ∀ x ∈ (noon_midnight_meridian tp delta).lons_noon,
      x = lons_latmax (diff_in_hours tp)) ∧
    (∀ delta : ℚ, ∀ x ∈ (noon_midnight_meridian tp delta).lons_midnight,
      x = lons_latmin (diff_in_hours tp)) := by
  refine ⟨?_, ?_, ?_, ?_, ?_⟩
  · intro h0
    simp [lons_latmax, lons_latmin, h0]
  · intro hpos
    have hne := ne_of_gt hpos
    simp [lons_latmax, lons_latmin, hne, hpos]
  · intro hneg
    have hne := ne_of_lt hneg
    have hnpos := not_lt.mpr (le_of_lt hneg)
    simp [lons_latmax, lons_latmin, hne, hnpos]
  · intro delta x hx
    simp only [noon_midnight_meridian] at hx
    exact List.eq_of_mem_replicate hx
  · intro delta x hx
    simp only [noon_midnight_meridian] at hx
    exact List.eq_of_mem_replicate hx

/-- Witness for C3 at 2020-06-21/06:00:00 (`diff_in_hours = 6 > 0`). -/
theorem meridian_maps_hours_to_longitude_witness :
    (TimePoint.mk 2020 6 21 6 0 0).ValidTime ∧
    lons_latmax (diff_in_hours (TimePoint.mk 2020 6 21 6 0 0)) =
      15 * diff_in_hours (TimePoint.mk 2020 6 21 6 0 0) := by
  have hv : (TimePoint.mk 2020 6 21 6 0 0).ValidTime :=
    ⟨by norm_num, by norm_num, by norm_num⟩
  exact ⟨hv,
    ((meridian_maps_hours_to_longitude _ hv).2.1 (by norm_num [diff_in_hours])).1⟩

/-- The timestamp `'2020-06-21/18:00:00'` of C4 (`diff_in_hours = -6`). -/
def tp_180000 : TimePoint := ⟨2020, 6, 21, 18, 0, 0⟩

example : diff_in_hours tp_180000 = -6 := by norm_num [diff_in_hours, tp_180000]

/-- C4 counterexample: at `'2020-06-21/18:00:00'` (diff_hours = -6) the
raw midnight longitude computed by `noon_midnight_meridian` is `270`
(`90 + 180`), not `-90`: the claim's raw-value equality fails. -/
theorem midnight_longitude_18h_cex :
    lons_latmax (diff_in_hours tp_180000) = 90 ∧
    lons_latmin (diff_in_hours tp_180000) = 270 ∧
    lons_latmin (diff_in_hours tp_180000) ≠ -90 := by
  norm_num [lons_latmin, lons_latmax, diff_in_hours, tp_180000]

/-- C4 (amended): for `'2020-06-21/18:00:00'` the noon longitude is `90`
(raw) and the midnight longitude is `270` raw — congruent to `-90` modulo
360 (`270 - (-90) = 360`) but not equal to it as a raw value. -/
theorem noon_midnight_longitude_18h (delta x y : ℚ)
    (hx : x ∈ (noon_midnight_meridian tp_180000 delta).lons_noon)
    (hy : y ∈ (noon_midnight_meridian tp_180000 delta).lons_midnight) :
    x = 90 ∧ y = 270 ∧ y - (-90) = 360 := by
  simp only [noon_midnight_meridian] at hx hy
  have hx' := List.eq_of_mem_replicate hx
  have hy' := List.eq_of_mem_replicate hy
  have h90 : lons_latmax (diff_in_hours tp_180000) = 90 := by
    norm_num [lons_latmax, diff_in_hours, tp_180000]
  have h270 : lons_latmin (diff_in_hours tp_180000) = 270 := by
    norm_num [lons_latmin, lons_latmax, diff_in_hours, tp_180000]
  rw [hx', hy', h90, h270]
  norm_num

/-- Witness for C4 (amended) at `delta = 360`, where each semicircle is a
single point. -/
theorem noon_midnight_longitude_18h_witness :
    (90:ℚ) ∈ (noon_midnight_meridian tp_180000 360).lons_noon ∧
    (270:ℚ) ∈ (noon_midnight_meridian tp_180000 360).lons_midnight ∧
    ((90:ℚ) = 90 ∧ (270:ℚ) = 270 ∧ (270:ℚ) - (-90) = 360) := by
  have hfl : (⌊((360:ℚ) / 360 + 1) / 2⌋ : ℤ) = 1 := by norm_num
  have h90 : lons_latmax (diff_in_hours tp_180000) = 90 := by
    norm_num [lons_latmax, diff_in_hours, tp_180000]
  have h270 : lons_latmin (diff_in_hours tp_180000) = 270 := by
    norm_num [lons_latmin, lons_latmax, diff_in_hours, tp_180000]
  have hpy : pyInt (((360:ℚ) / 360 + 1) - (((1:ℤ)) : ℚ)) = 1 := by
    norm_num [pyInt]
  have hm1 : (90:ℚ) ∈ (noon_midnight_meridian tp_180000 360).lons_noon := by
    simp only [noon_midnight_meridian, hfl, h90]
    simp
  have hm2 : (270:ℚ) ∈ (noon_midnight_meridian tp_180000 360).lons_midnight := by
    simp only [noon_midnight_meridian, hfl, hpy, h270]
    simp
  exact ⟨hm1, hm2, noon_midnight_longitude_18h 360 90 270 hm1 hm2⟩

/-- C7 counterexample: at `delta = 7`, `n = 360/7 + 1` is not an integer;
the midnight trace has `int(n - floor(n/2)) = 26` points, whereas the
claimed count `n - floor(n/2) = 185/7` is not `26`. -/
theorem midnight_trace_length_cex :
    (noon_midnight_meridian tp_180000 7).lons_midnight.length = 26 ∧
    (((noon_midnight_meridian tp_180000 7).lons_midnight.length : ℚ) ≠
      ((360:ℚ) / 7 + 1) - ((⌊(((360:ℚ) / 7 + 1)) / 2⌋ : ℤ) : ℚ)) := by
  have hfl : (⌊((360:ℚ) / 7 + 1) / 2⌋ : ℤ) = 26 := by norm_num
  have hpy : pyInt (((360:ℚ) / 7 + 1) - (((26:ℤ)) : ℚ)) = 26 := by
    norm_num [pyInt]
  have hlen : (noon_midnight_meridian tp_180000 7).lons_midnight.length = 26 := by
    simp only [noon_midnight_meridian, hfl, hpy]
    simp
  refine ⟨hlen, ?_⟩
  rw [hlen, hfl]
  norm_num

/-- C7 (amended): for every `delta > 0`, with `n = 360/delta + 1`, the noon
trace has `⌊n/2⌋` points and the midnight trace has
`int(n - ⌊n/2⌋) = ⌊n⌋ - ⌊n/2⌋` points (which equals the claimed
`n - ⌊n/2⌋` exactly when `360/delta` is an integer), and the combined
noon-midnight trace length is always the sum of the two. -/
theorem trace_lengths (tp : TimePoint) (delta : ℚ) (hpos : 0 < delta) :
    (noon_midnight_meridian tp delta).lons_noon.length =
      (⌊(360 / delta + 1) / 2⌋).toNat ∧
    (noon_midnight_meridian tp delta).lats_noon.length =
      (⌊(360 / delta + 1) / 2⌋).toNat ∧
    (noon_midnight_meridian tp delta).lons_midnight.length =
      (⌊(360 / delta + 1 : ℚ)⌋ - ⌊(360 / delta + 1) / 2⌋).toNat ∧
    (noon_midnight_meridian tp delta).lats_midnight.length =
      (⌊(360 / delta + 1 : ℚ)⌋ - ⌊(360 / delta + 1) / 2⌋).toNat ∧
    (noon_midnight_meridian tp delta).lons_noonmidnight.length =
      (noon_midnight_meridian tp delta).lons_noon.length +
        (noon_midnight_meridian tp delta).lons_midnight.length ∧
    (noon_midnight_meridian tp delta).lats_noonmidnight.length =
      (noon_midnight_meridian tp delta).lats_noon.length +
        (noon_midnight_meridian tp delta).lats_midnight.length := by
  have hd : (0:ℚ) < 360 / delta := div_pos (by norm_num) hpos
  have hfl2 : ((⌊(360 / delta + 1) / 2⌋ : ℤ) : ℚ) ≤ 360 / delta + 1 := by
    calc ((⌊(360 / delta + 1) / 2⌋ : ℤ) : ℚ) ≤ (360 / delta + 1) / 2 :=
          Int.floor_le _
      _ ≤ 360 / delta + 1 := by linarith
  have hpy : pyInt ((360 / delta + 1) - ((⌊(360 / delta + 1) / 2⌋ : ℤ) : ℚ)) =
      ⌊(360 / delta + 1 : ℚ)⌋ - ⌊(360 / delta + 1) / 2⌋ := by
    rw [pyInt_nonneg _ (by linarith), Int.floor_sub_int]
  simp only [noon_midnight_meridian]
  rw [hpy]
  simp [linspace_length, List.length_append]

/-- Two-digit zero-padded decimal field of `strftime` (`%m`, `%d`, `%H`,
`%M`, `%S`); faithful for the field values a parsed timestamp can carry
(all below 100). -/
def pad2 (n : ℕ) : String :=
  String.mk [Nat.digitChar (n / 10), Nat.digitChar (n % 10)]

/-- Four-digit zero-padded `%Y` field of `strftime`; faithful for years
below 10000. -/
def pad4 (n : ℕ) : String :=
  String.mk [Nat.digitChar (n / 1000 % 10), Nat.digitChar (n / 100 % 10),
             Nat.digitChar (n / 10 % 10), Nat.digitChar (n % 10)]

/-- `date_nightshade.strftime('%Y%m%d%H%M%S')`: the timestamp at seconds
resolution as fourteen decimal digits. -/
def strftime14 (tp : TimePoint) : String :=
  pad4 tp.year ++ pad2 tp.month ++ pad2 tp.day ++
    pad2 tp.hour ++ pad2 tp.minute ++ pad2 tp.second

/-- Observable side effects of the plotting pipeline: loading the day's
data files for a data type, and saving an image file. -/
inductive PlotEffect where
  | readData (dtype : String)
  | saveFile (path : String)
deriving Repr, DecidableEq

/-- The load/save effects performed by `_make_EICS_plots` on a successful
run: one data load, then `savefig` of the vector plot and `savefig` of the
contour plot, named from the plots directory, the data-type tag and the
timestamp at seconds resolution. -/
def make_EICS_plots_effects (plots_dir : String) (tp : TimePoint) : List PlotEffect :=
  [PlotEffect.readData "EICS",
   PlotEffect.saveFile (plots_dir ++ "EICS" ++ "_vector_" ++ strftime14 tp ++ ".jpeg"),
   PlotEffect.saveFile (plots_dir ++ "EICS" ++ "_contour_" ++ strftime14 tp ++ ".jpeg")]

/-- The load/save effects performed by `_make_SECS_plots` on a successful
run: one data load, then `savefig` of the single contour plot. -/
def make_SECS_plots_effects (plots_dir : String) (tp : TimePoint) : List PlotEffect :=
  [PlotEffect.readData "SECS",
   PlotEffect.saveFile (plots_dir ++ "SECS" ++ "_" ++ strftime14 tp ++ ".jpeg")]

/-- `make_plots(dtype, dtime, ...)`: two independent `if` tests dispatch on
the data-type tag; any other tag falls through to the bare `return`. -/
def make_plots_effects (dtype : String) (plots_dir : String) (tp : TimePoint) :
    List PlotEffect :=
  (if dtype = "EICS" then make_EICS_plots_effects plots_dir tp else []) ++
  (if dtype = "SECS" then make_SECS_plots_effects plots_dir tp else [])

/-- The image files written by a sequence of effects, in order. -/
def savedFiles (effs : List PlotEffect) : List String :=
  effs.filterMap fun e => match e with
    | PlotEffect.saveFile p => some p
    | _ => none

lemma digitChar_isDigit (n : ℕ) (h : n < 10) : (Nat.digitChar n).isDigit := by
  interval_cases n <;> decide

/-- C8: for a valid timestamp, `make_plots` with dtype `'EICS'` writes
exactly the two files `<plots_dir>EICS_vector_<ts>.jpeg` and
`<plots_dir>EICS_contour_<ts>.jpeg` (in that order), and with dtype
`'SECS'` exactly the one file `<plots_dir>SECS_<ts>.jpeg`, where
`ts = strftime14 tp` is a fourteen-character all-decimal-digit timestamp
at seconds resolution; the modelled pipeline is total, so no exception is
raised. -/
theorem make_plots_output_files (plots_dir : String) (tp : TimePoint)
    (hy1 : 1000 ≤ tp.year) (hy2 : tp.year < 10000) (hmo : tp.month ≤ 12)
    (hd : tp.day ≤ 31) (hv : tp.ValidTime) :
    savedFiles (make_plots_effects "EICS" plots_dir tp) =
      [plots_dir ++ "EICS" ++ "_vector_" ++ strftime14 tp ++ ".jpeg",
       plots_dir ++ "EICS" ++ "_contour_" ++ strftime14 tp ++ ".jpeg"] ∧
    savedFiles (make_plots_effects "SECS" plots_dir tp) =
      [plots_dir ++ "SECS" ++ "_" ++ strftime14 tp ++ ".jpeg"] ∧
    (strftime14 tp).length = 14 ∧
    (∀ c ∈ (strftime14 tp).data, c.isDigit) := by
  obtain ⟨hh, hmi, hs⟩ := hv
  have hES : ("EICS":String) ≠ "SECS" := by decide
  have hSE : ("SECS":String) ≠ "EICS" := by decide
  refine ⟨?_, ?_, ?_, ?_⟩
  · simp [make_plots_effects, make_EICS_plots_effects, savedFiles, hES]
  · simp [make_plots_effects, make_SECS_plots_effects, savedFiles, hSE]
  · simp [strftime14, pad4, pad2, String.length_append, String.length]
  · intro c hc
    simp only [strftime14, String.data_append, pad4, pad2, List.mem_append,
      List.mem_cons, List.not_mem_nil, or_false] at hc
    rcases hc with (((((rfl|rfl|rfl|rfl)|rfl|rfl)|rfl|rfl)|rfl|rfl)|rfl|rfl)|rfl|rfl <;>
      apply digitChar_isDigit <;> omega

example : strftime14 tp_180000 = "20200621180000" := by decide

/-- Witness for C8 at `tp_180000` with plots directory `"plots/"`. -/
theorem make_plots_output_files_witness :
    savedFiles (make_plots_effects "EICS" "plots/" tp_180000) =
      ["plots/" ++ "EICS" ++ "_vector_" ++ strftime14 tp_180000 ++ ".jpeg",
       "plots/" ++ "EICS" ++ "_contour_" ++ strftime14 tp_180000 ++ ".jpeg"] ∧
    savedFiles (make_plots_effects "SECS" "plots/" tp_180000) =
      ["plots/" ++ "SECS" ++ "_" ++ strftime14 tp_180000 ++ ".jpeg"] ∧
    (strftime14 tp_180000).length = 14 ∧
    (∀ c ∈ (strftime14 tp_180000).data, c.isDigit) :=
  make_plots_output_files "plots/" tp_180000 (by norm_num [tp_180000])
    (by norm_num [tp_180000]) (by norm_num [tp_180000]) (by norm_num [tp_180000])
    ⟨by norm_num [tp_180000], by norm_num [tp_180000], by norm_num [tp_180000]⟩

/-- IEEE-754 double values as they arise in numpy's unit-vector
normalization: finite values kept exact (rounding is not at issue in the
claims), NaN, and the two infinities. -/
inductive NpFloat where
  | fin : ℚ → NpFloat
  | nan : NpFloat
  | inf : NpFloat
  | ninf : NpFloat
deriving Repr, DecidableEq

namespace NpFloat

/-- IEEE addition with special values; NaN is absorbing, `inf + (-inf)`
is NaN. -/
def add : NpFloat → NpFloat → NpFloat
  | fin a, fin b => fin (a + b)
  | nan, _ => nan
  | _, nan => nan
  | inf, ninf => nan
  | ninf, inf => nan
  | inf, _ => inf
  | _, inf => inf
  | ninf, _ => ninf
  | _, ninf => ninf

/-- IEEE subtraction with special values. -/
def sub : NpFloat → NpFloat → NpFloat
  | fin a, fin b => fin (a - b)
  | nan, _ => nan
  | _, nan => nan
  | inf, inf => nan
  | ninf, ninf => nan
  | inf, _ => inf
  | ninf, _ => ninf
  | _, inf => ninf
  | _, ninf => inf

/-- IEEE multiplication with special values; `0 * inf` is NaN. -/
def mul : NpFloat → NpFloat → NpFloat
  | fin a, fin b => fin (a * b)
  | nan, _ => nan
  | _, nan => nan
  | inf, fin b => if b = 0 then nan else if 0 < b then inf else ninf
  | fin a, inf => if a = 0 then nan else if 0 < a then inf else ninf
  | ninf, fin b => if b = 0 then nan else if 0 < b then ninf else inf
  | fin a, ninf => if a = 0 then nan else if 0 < a then ninf else inf
  | inf, inf => inf
  | inf, ninf => ninf
  | ninf, inf => ninf
  | ninf, ninf => inf

/-- IEEE division with special values, as numpy computes it (emitting a
runtime warning, not an exception): `0/0` is NaN, `x/0` for `x ≠ 0` is a
signed infinity, `inf/inf` is NaN. -/
def div : NpFloat → NpFloat → NpFloat
  | fin a, fin b =>
      if b = 0 then (if a = 0 then nan else if 0 < a then inf else ninf)
      else fin (a / b)
  | nan, _ => nan
  | _, nan => nan
  | fin _, inf => fin 0
  | fin _, ninf => fin 0
  | inf, fin b => if 0 ≤ b then inf else ninf
  | ninf, fin b => if 0 ≤ b then ninf else inf
  | inf, inf => nan
  | inf, ninf => nan
  | ninf, inf => nan
  | ninf, ninf => nan

/-- IEEE square root with special values: NaN for negative finite inputs
and for NaN, `inf` for `inf`.  The (generally irrational) value on
non-negative finite inputs is a parameter `s`; IEEE fixes `s 0 = 0`,
required as a hypothesis where it matters. -/
def sqrt (s : ℚ → ℚ) : NpFloat → NpFloat
  | fin q => if q < 0 then nan else fin (s q)
  | nan => nan
  | inf => inf
  | ninf => nan

end NpFloat

/-- `Jx_uni = Jx / np.sqrt(Jx ** 2 + Jy ** 2)` for one data row. -/
def Jx_uni (s : ℚ → ℚ) (jx jy : NpFloat) : NpFloat :=
  NpFloat.div jx
    (NpFloat.sqrt s (NpFloat.add (NpFloat.mul jx jx) (NpFloat.mul jy jy)))

/-- `Jy_uni = Jy / np.sqrt(Jx ** 2 + Jy ** 2)` for one data row. -/
def Jy_uni (s : ℚ → ℚ) (jx jy : NpFloat) : NpFloat :=
  NpFloat.div jy
    (NpFloat.sqrt s (NpFloat.add (NpFloat.mul jx jx) (NpFloat.mul jy jy)))

/-- `color = np.sqrt(((Jx_uni - n) / 2) ** 2 + ((Jy_uni - n) / 2) ** 2)`
with `n = -2`, for one data row. -/
def quiver_color (s : ℚ → ℚ) (jx jy : NpFloat) : NpFloat :=
  NpFloat.sqrt s (NpFloat.add
    (NpFloat.mul (NpFloat.div (NpFloat.sub (Jx_uni s jx jy) (NpFloat.fin (-2))) (NpFloat.fin 2))
                 (NpFloat.div (NpFloat.sub (Jx_uni s jx jy) (NpFloat.fin (-2))) (NpFloat.fin 2)))
    (NpFloat.mul (NpFloat.div (NpFloat.sub (Jy_uni s jx jy) (NpFloat.fin (-2))) (NpFloat.fin 2))
                 (NpFloat.div (NpFloat.sub (Jy_uni s jx jy) (NpFloat.fin (-2))) (NpFloat.fin 2))))

/-- C9: a row with `Jx = 0` and `Jy = 0` does not raise an error: the
magnitude is `0`, the two divisions are `0/0` and produce NaN, and the NaN
propagates silently into the quiver color — the functions are total and no
guard exists on zero-magnitude vectors. -/
theorem zero_vector_normalization_nan (s : ℚ → ℚ) (h0 : s 0 = 0) :
    Jx_uni s (NpFloat.fin 0) (NpFloat.fin 0) = NpFloat.nan ∧
    Jy_uni s (NpFloat.fin 0) (NpFloat.fin 0) = NpFloat.nan ∧
    quiver_color s (NpFloat.fin 0) (NpFloat.fin 0) = NpFloat.nan := by
  simp [Jx_uni, Jy_uni, quiver_color, NpFloat.div, NpFloat.add, NpFloat.mul,
    NpFloat.sqrt, NpFloat.sub, h0]

/-- Witness for C9 with the concrete square-root `fun q => 0` (correct at
the only finite input that occurs, `0`). -/
theorem zero_vector_normalization_nan_witness :
    (fun _ : ℚ => (0:ℚ)) 0 = 0 ∧
    Jx_uni (fun _ : ℚ => (0:ℚ)) (NpFloat.fin 0) (NpFloat.fin 0) = NpFloat.nan ∧
    Jy_uni (fun _ : ℚ => (0:ℚ)) (NpFloat.fin 0) (NpFloat.fin 0) = NpFloat.nan ∧
    quiver_color (fun _ : ℚ => (0:ℚ)) (NpFloat.fin 0) (NpFloat.fin 0) = NpFloat.nan :=
  ⟨rfl, zero_vector_normalization_nan (fun _ : ℚ => (0:ℚ)) rfl⟩

/-- C10: for every dtype other than `'EICS'` and `'SECS'`, `make_plots`
performs no effect at all — no data load, no file write, no error — and
just returns. -/
theorem make_plots_unknown_dtype_noop (dtype plots_dir : String)
    (tp : TimePoint) (h1 : dtype ≠ "EICS") (h2 : dtype ≠ "SECS") :
    make_plots_effects dtype plots_dir tp = [] := by
  simp [make_plots_effects, h1, h2]

/-- Witness for C10 at the dtype `"GICS"`. -/
theorem make_plots_unknown_dtype_noop_witness :
    ("GICS" : String) ≠ "EICS" ∧ ("GICS" : String) ≠ "SECS" ∧
    make_plots_effects "GICS" "plots/" tp_180000 = [] :=
  ⟨by decide, by decide,
    make_plots_unknown_dtype_noop "GICS" "plots/" tp_180000 (by decide) (by decide)⟩

/-- Witness for C7 (amended) at `delta = 2` (`n = 181`, noon 90 points,
midnight 91 points, full trace 181 points). -/
theorem trace_lengths_witness :
    (0:ℚ) < 2 ∧
    ((noon_midnight_meridian tp_180000 2).lons_noon.length =
      (⌊((360:ℚ) / 2 + 1) / 2⌋).toNat ∧
    (noon_midnight_meridian tp_180000 2).lats_noon.length =
      (⌊((360:ℚ) / 2 + 1) / 2⌋).toNat ∧
    (noon_midnight_meridian tp_180000 2).lons_midnight.length =
      (⌊((360:ℚ) / 2 + 1 : ℚ)⌋ - ⌊((360:ℚ) / 2 + 1) / 2⌋).toNat ∧
    (noon_midnight_meridian tp_180000 2).lats_midnight.length =
      (⌊((360:ℚ) / 2 + 1 : ℚ)⌋ - ⌊((360:ℚ) / 2 + 1) / 2⌋).toNat ∧
    (noon_midnight_meridian tp_180000 2).lons_noonmidnight.length =
      (noon_midnight_meridian tp_180000 2).lons_noon.length +
        (noon_midnight_meridian tp_180000 2).lons_midnight.length ∧
    (noon_midnight_meridian tp_180000 2).lats_noonmidnight.length =
      (noon_midnight_meridian tp_180000 2).lats_noon.length +
        (noon_midnight_meridian tp_180000 2).lats_midnight.length) :=
  ⟨by norm_num, trace_lengths tp_180000 2 (by norm_num)⟩
